import Mathlib

/-!
Shallow embedding of `httpmocker/client.py` (py_mock_http): a control-plane
client for a remote mock-HTTP server.  Pure Lean translations of the
Transport Adapter (`HTTPAdapter`), Session (`Client`), Application Handle
(`App`) and Handler Handle (`Handler`), with the request/response exchange
modelled as a function from the request a method sends to the response the
server returns.  All mutation is explicit state passing: a Python method
that mutates `self` becomes a Lean function returning the updated record.
-/

namespace HttpMocker

/-- The fragment of JSON values the control protocol exchanges (spec section 6:
objects, strings, numbers, booleans, null).  This is the result type of
`json.loads` on a response body and the element type of a request config
dict.  JSON arrays are never produced or consumed by any control operation,
so they are left out of the fragment. -/
inductive Json where
  | null : Json
  | bool (b : Bool) : Json
  | num (n : Int) : Json
  | str (s : String) : Json
  | obj (fields : List (String × Json)) : Json

mutual

/-- Python `str(x)` / f-string formatting of a decoded JSON value, as used by
`f"..."` when building exception messages from `body["error"]`.  Strings
format to themselves; nested values inside a dict format with `repr`. -/
def pyStr : Json → String
  | Json.null => "None"
  | Json.bool true => "True"
  | Json.bool false => "False"
  | Json.num n => toString n
  | Json.str s => s
  | Json.obj fs => "\x7b" ++ pyReprFields fs ++ "\x7d"

/-- Python `repr(x)` for a decoded JSON value (used for values nested inside
a dict being formatted). -/
def pyRepr : Json → String
  | Json.null => "None"
  | Json.bool true => "True"
  | Json.bool false => "False"
  | Json.num n => toString n
  | Json.str s => "\x27" ++ s ++ "\x27"
  | Json.obj fs => "\x7b" ++ pyReprFields fs ++ "\x7d"

/-- Comma-separated `repr` rendering of a Python dict's items. -/
def pyReprFields : List (String × Json) → String
  | [] => ""
  | [(k, v)] => "\x27" ++ k ++ "\x27: " ++ pyRepr v
  | (k, v) :: rest => "\x27" ++ k ++ "\x27: " ++ pyRepr v ++ ", " ++ pyReprFields rest
end

/-- The Python exceptions the client can raise.  `clientException`,
`appException`, `handlerException` and `connectError` come from
`httpmocker.exceptions`; `keyError` and `typeError` are the builtin
exceptions raised by a failed subscript `body["error"]`. -/
inductive PyError where
  | clientException (msg : String)
  | appException (msg : String)
  | handlerException (msg : String)
  | connectError (msg : String)
  | keyError (key : String)
  | typeError (msg : String)
deriving DecidableEq, Repr

/-- A live `http.client.HTTPConnection` to (host, port) with its connect
timeout, as created by `HTTPAdapter.connect`. -/
structure Conn where
  host : String
  port : Nat
  timeout : Nat
deriving DecidableEq, Repr

/-- One control request as sent by `conn.request(method, path, body, headers)`.
Header values in the source are heterogeneous (strings, ints, bools, None),
so they are carried as `Json`; the body is carried as its pre-serialization
JSON value (`json.dumps` is applied by the source, but no claim inspects the
wire text). -/
structure Request where
  method : String
  path : String
  headers : List (String × Json)
  body : Option Json

/-- One control response as seen by the client: `response.status`,
`response.headers`, and the JSON decoding of `response.read()` (a response
body that fails `json.loads` is outside the scope of the claims). -/
structure Response where
  status : Nat
  headers : List (String × String)
  body : Json

/-- `response.headers[k]` on an `http.client` response: the header value, or
None when the header is absent (`email.message.Message.__getitem__`). -/
def headerGet (hs : List (String × String)) (k : String) : Option String :=
  (hs.find? (fun p => p.1 == k)).map (fun p => p.2)

/-- Python subscript `body[k]` on a decoded JSON value: a field lookup on an
object (KeyError when missing), a TypeError on anything that is not an
object. -/
def jsonGetItem (j : Json) (k : String) : Except PyError Json :=
  match j with
  | Json.obj fs =>
    match fs.find? (fun p => p.1 == k) with
    | some p => Except.ok p.2
    | none => Except.error (PyError.keyError k)
  | _ => Except.error (PyError.typeError "value is not subscriptable")

/-- The failure path shared by every control operation:
`raise XException(f"...")` where the f-string formats `body["error"]`.  The
subscript is evaluated first, so a body without an `error` field raises the
subscript's own KeyError/TypeError instead of the typed exception. -/
def raiseFromBody (mk : String → PyError) (body : Json) : PyError :=
  match jsonGetItem body "error" with
  | Except.ok v => mk (pyStr v)
  | Except.error e => e

/-- A Python dict over string keys with JSON values, in insertion order. -/
abbrev Dict := List (String × Json)

/-- Store one key in a dict: overwrite in place when the key exists,
append otherwise (Python dict assignment semantics; a Python dict never
holds duplicate keys, so replacing the first occurrence is exact). -/
def dictSet : Dict → String → Json → Dict
  | [], k, v => [(k, v)]
  | p :: rest, k, v => if p.1 == k then (k, v) :: rest else p :: dictSet rest k v

/-- Python `d.update(kvs)`: store every pair of `kvs` in order. -/
def dictUpdate (d : Dict) (kvs : List (String × Json)) : Dict :=
  kvs.foldl (fun acc kv => dictSet acc kv.1 kv.2) d

/-- Lookup in a dict. -/
def dictGet (d : Dict) (k : String) : Option Json :=
  (d.find? (fun p => p.1 == k)).map (fun p => p.2)

/-- Python `k in d`. -/
def dictHasKey (d : Dict) (k : String) : Bool :=
  d.any (fun p => p.1 == k)

/-- The JSON value a Python `Optional[str]` attribute contributes to a dict:
None becomes JSON null. -/
def jsonOfOptStr : Option String → Json
  | none => Json.null
  | some s => Json.str s

/-- Modelled from the spec: `httpmocker.utils.permit_access_if(attr, value,
msg)` lives in `httpmocker/utils.py`, which is not part of the sources under
review; only its call sites in `client.py` are.  Per its name and spec
sections 7 and 9 it is a decorator-style field check that permits the
decorated call iff the named field currently equals `value`, and otherwise
raises a purely client-side `ClientException(msg)` precondition error before
any network I/O.  `current` is the field's value at call time. -/
def permit_access_if (current value : Bool) (msg : String) : Except PyError Unit :=
  if current = value then Except.ok () else Except.error (PyError.clientException msg)

/-- The environment a control operation runs against: for the single request
the operation sends, the response the server returns.  An operation whose
result is the same for every environment performs no observable network
I/O. -/
abbrev Env := Request → Response

/-- `HTTPAdapter` state: host, port, the current `_conn` and `_connected`
flag.  `disconnectCalls` is a ghost counter (not a source field) recording
how many times `disconnect` has run, used to state the exactly-once release
property of spec section 5. -/
structure HTTPAdapter where
  host : String
  port : Nat
  conn : Option Conn
  connected : Bool
  disconnectCalls : Nat
deriving DecidableEq, Repr

/-- `HTTPAdapter.__init__(host, port)`. -/
def HTTPAdapter.init (host : String) (port : Nat) : HTTPAdapter :=
  { host := host, port := port, conn := none, connected := false, disconnectCalls := 0 }

/-- `HTTPAdapter.connect`: builds a fresh `HTTPConnection(host, port,
timeout=10)`, stores it in `_conn`, sets `_connected`, and returns it.
(The `HTTPException` branch cannot fire here: constructing an
`HTTPConnection` does not open the socket.) -/
def HTTPAdapter.connect (ad : HTTPAdapter) : HTTPAdapter × Conn :=
  let c : Conn := { host := ad.host, port := ad.port, timeout := 10 }
  ({ ad with conn := some c, connected := true }, c)

/-- `HTTPAdapter.disconnect`: `self._conn.close()` then `_connected = False`.
The close-failure branch (`ConnectError`) is environment-dependent and not
exercised by any claim; the nominal path is modelled.  The ghost
`disconnectCalls` counter is incremented. -/
def HTTPAdapter.disconnect (ad : HTTPAdapter) : HTTPAdapter :=
  { ad with connected := false, disconnectCalls := ad.disconnectCalls + 1 }

/-- `Handler` state: `_name`, the borrowed `conn`, `base_url` and the
`handler_set` attached flag. -/
structure Handler where
  name : String
  conn : Option Conn
  base_url : String
  handler_set : Bool
deriving DecidableEq, Repr

/-- `Handler.__init__(name, conn=...)`. -/
def Handler.init (name : String) (conn : Option Conn) : Handler :=
  { name := name, conn := conn, base_url := "/mock/app/handler/", handler_set := false }

/-- `Handler.attach(data)`: NOT decorated with any precondition guard in the
source.  Sends `POST base_url` with header `m-handler-name` and the opaque
payload as body; on 200 sets `handler_set = True` and returns the decoded
body, otherwise raises via `raiseFromBody` with `HandlerException`. -/
def Handler.attach (h : Handler) (data : String) (env : Env) : Handler × Except PyError Json :=
  let req : Request :=
    { method := "POST", path := h.base_url,
      headers := [("m-handler-name", Json.str h.name)], body := some (Json.str data) }
  let r := env req
  if r.status ≠ 200 then (h, Except.error (raiseFromBody PyError.handlerException r.body))
  else ({ h with handler_set := true }, Except.ok r.body)

/-- `Handler.set_data(url, data)`: guarded by
`permit_access_if("handler_set", True, msg="Handler is not set.")`.
Sends `POST base_url + "data/"` with header `m-handler-url` and
`json.dumps(data)` as body; returns the decoded body on 200. -/
def Handler.set_data (h : Handler) (url : String) (data : Json) (env : Env) :
    Handler × Except PyError Json :=
  match permit_access_if h.handler_set true "Handler is not set." with
  | Except.error e => (h, Except.error e)
  | Except.ok _ =>
    let req : Request :=
      { method := "POST", path := h.base_url ++ "data/",
        headers := [("m-handler-url", Json.str url)], body := some data }
    let r := env req
    if r.status ≠ 200 then (h, Except.error (raiseFromBody PyError.handlerException r.body))
    else (h, Except.ok r.body)

/-- `Handler.remove_data(url)`: guarded by
`permit_access_if("handler_set", True, msg="Handler is not set.")`.
Sends `DELETE base_url + "data/"` with header `m-handler-url`. -/
def Handler.remove_data (h : Handler) (url : String) (env : Env) :
    Handler × Except PyError Json :=
  match permit_access_if h.handler_set true "Handler is not set." with
  | Except.error e => (h, Except.error e)
  | Except.ok _ =>
    let req : Request :=
      { method := "DELETE", path := h.base_url ++ "data/",
        headers := [("m-handler-url", Json.str url)], body := none }
    let r := env req
    if r.status ≠ 200 then (h, Except.error (raiseFromBody PyError.handlerException r.body))
    else (h, Except.ok r.body)

/-- `Handler.detach()`: guarded by
`permit_access_if("handler_set", True, msg="Handler is not set.")`.
Sends `DELETE base_url` with header `m-handler-name`; on 200 clears
`handler_set` and returns the decoded body. -/
def Handler.detach (h : Handler) (env : Env) : Handler × Except PyError Json :=
  match permit_access_if h.handler_set true "Handler is not set." with
  | Except.error e => (h, Except.error e)
  | Except.ok _ =>
    let req : Request :=
      { method := "DELETE", path := h.base_url,
        headers := [("m-handler-name", Json.str h.name)], body := none }
    let r := env req
    if r.status ≠ 200 then (h, Except.error (raiseFromBody PyError.handlerException r.body))
    else ({ h with handler_set := false }, Except.ok r.body)

/-- `App` state: `_name`, `_id`, `_enable_ssl`, `_ssl_cert`, `_ssl_key`,
`port`, the borrowed `conn`, `base_url`, `started`. -/
structure App where
  name : String
  id : Option String
  enable_ssl : Bool
  ssl_cert : Option String
  ssl_key : Option String
  port : Nat
  conn : Option Conn
  base_url : String
  started : Bool
deriving DecidableEq, Repr

/-- `App.__init__(name, port=..., conn=..., **kwargs)`: `_id = None`,
`started = False`, `base_url = "/mock/app/"`; `enable_ssl` defaults to
False and `ssl_cert`/`ssl_key` to None. -/
def App.init (name : String) (port : Nat) (conn : Option Conn)
    (enable_ssl : Bool) (ssl_cert ssl_key : Option String) : App :=
  { name := name, id := none, enable_ssl := enable_ssl, ssl_cert := ssl_cert,
    ssl_key := ssl_key, port := port, conn := conn, base_url := "/mock/app/",
    started := false }

/-- `App.status()`: guarded by
`permit_access_if("started", True, msg="App has not started.")`.
Sends `GET base_url` with header `m-app-id`; returns the decoded body on
200, raises `AppException(body["error"])` otherwise.  No state change. -/
def App.status (a : App) (env : Env) : App × Except PyError Json :=
  match permit_access_if a.started true "App has not started." with
  | Except.error e => (a, Except.error e)
  | Except.ok _ =>
    let req : Request :=
      { method := "GET", path := a.base_url,
        headers := [("m-app-id", jsonOfOptStr a.id)], body := none }
    let r := env req
    if r.status ≠ 200 then (a, Except.error (raiseFromBody PyError.appException r.body))
    else (a, Except.ok r.body)

/-- `App.stop()`: guarded in the source by
`permit_access_if("started", False, msg="App has not started.")` — the
guard value is `False` even though the message names the started state
(spec section 9 flags this mismatch).  Sends `DELETE base_url` with header
`m-app-id`; on 200 sets `started = False` (leaving `_id` untouched) and
returns the decoded body. -/
def App.stop (a : App) (env : Env) : App × Except PyError Json :=
  match permit_access_if a.started false "App has not started." with
  | Except.error e => (a, Except.error e)
  | Except.ok _ =>
    let req : Request :=
      { method := "DELETE", path := a.base_url,
        headers := [("m-app-id", jsonOfOptStr a.id)], body := none }
    let r := env req
    if r.status ≠ 200 then (a, Except.error (raiseFromBody PyError.appException r.body))
    else ({ a with started := false }, Except.ok r.body)

/-- `App.start(config=None)`: guarded by
`permit_access_if("started", False, msg="App has already started.")`.
`config = config or {}` replaces a falsy argument (None or the empty dict)
by a fresh dict, so only a non-empty caller dict is mutated in place by the
subsequent `config.update({"ssl_cert": ..., "ssl_key": ...})`.  Sends
`POST base_url` with headers `m-app-name`/`m-app-port`/`m-app-enable-ssl`
and the updated config as body; on 200 stores
`_id = response.headers["m-app-id"]` (None when the header is absent), sets
`started = True` and returns the decoded body.  The result triple is
(updated App, the caller's dict after the call, outcome). -/
def App.start (a : App) (config? : Option Dict) (env : Env) :
    App × Option Dict × Except PyError Json :=
  match permit_access_if a.started false "App has already started." with
  | Except.error e => (a, config?, Except.error e)
  | Except.ok _ =>
    let isCallerDict : Bool := match config? with
      | some d => !d.isEmpty
      | none => false
    let config0 : Dict := match config? with
      | some d => if d.isEmpty then [] else d
      | none => []
    let config1 := dictUpdate config0
      [("ssl_cert", jsonOfOptStr a.ssl_cert), ("ssl_key", jsonOfOptStr a.ssl_key)]
    let caller' : Option Dict := if isCallerDict then some config1 else config?
    let req : Request :=
      { method := "POST", path := a.base_url,
        headers := [("m-app-name", Json.str a.name),
                    ("m-app-port", Json.num (Int.ofNat a.port)),
                    ("m-app-enable-ssl", Json.bool a.enable_ssl)],
        body := some (Json.obj config1) }
    let r := env req
    if r.status ≠ 200 then (a, caller', Except.error (raiseFromBody PyError.appException r.body))
    else ({ a with id := headerGet r.headers "m-app-id", started := true },
          caller', Except.ok r.body)

/-- `App.handler(name, **kwargs)`: guarded by
`permit_access_if("started", True, msg="App has not started.")`.
`kwargs["conn"] = kwargs.get("adapter", HTTPAdapter("0.0.0.0", self.port)).connect()`
— the chosen adapter (the caller's, or a fresh plain one to the app's port)
has `connect()` called on it, and the Handler is bound to the connection it
returns.  The adapter in its post-connect state is returned alongside the
Handler to record the side effect on the caller's adapter. -/
def App.handler (a : App) (name : String) (adapter? : Option HTTPAdapter) :
    App × Except PyError (HTTPAdapter × Handler) :=
  match permit_access_if a.started true "App has not started." with
  | Except.error e => (a, Except.error e)
  | Except.ok _ =>
    let ad := adapter?.getD (HTTPAdapter.init "0.0.0.0" a.port)
    let step := ad.connect
    (a, Except.ok (step.1, Handler.init name (some step.2)))

/-- `Client` state: the owned adapter and `base_url`. -/
structure Client where
  adapter : HTTPAdapter
  base_url : String
deriving DecidableEq, Repr

/-- `Client.__init__(adapter=HTTPAdapter("0.0.0.0", 8080))`. -/
def Client.init (adapter : HTTPAdapter) : Client :=
  { adapter := adapter, base_url := "/mock/" }

/-- `Client.connect`: `self.adapter.connect()` (return value discarded). -/
def Client.connect (cl : Client) : Client :=
  { cl with adapter := cl.adapter.connect.1 }

/-- `Client.disconnect`: `self.adapter.disconnect()`. -/
def Client.disconnect (cl : Client) : Client :=
  { cl with adapter := cl.adapter.disconnect }

/-- `Client.app(name, port, **kwargs)`: injects the adapter's live
connection and constructs an App; no network I/O of its own. -/
def Client.app (cl : Client) (name : String) (port : Nat)
    (enable_ssl : Bool) (ssl_cert ssl_key : Option String) : App :=
  App.init name port cl.adapter.conn enable_ssl ssl_cert ssl_key

/-- The `with Client(...) as client:` scope, per PEP 343 desugaring:
`__enter__` (which calls `connect`) runs first, then the body, then —
whether the body returned or raised — `__exit__` (which calls
`disconnect`).  `Client.__exit__` returns None, so a body exception is
never suppressed: the scope's outcome is exactly the body's outcome,
delivered after `disconnect` has run. -/
def Client.withScope {α : Type} (cl : Client) (body : Client → Except PyError α) :
    Client × Except PyError α :=
  let cl1 := cl.connect
  let r := body cl1
  let cl2 := cl1.disconnect
  (cl2, r)

/-! Concrete fixtures used by witnesses and counterexamples. -/

/-- A freshly constructed App: name "svc", port 9001, no connection,
plain transport, no certificate material. -/
def app0 : App := App.init "svc" 9001 none false none none

/-- The App after a successful start whose response carried
`m-app-id: abc123`. -/
def appStartedEx : App := { app0 with id := some "abc123", started := true }

/-- A Handler in the attached state. -/
def handlerAttachedEx : Handler := { Handler.init "h1" none with handler_set := true }

/-- A failing control response: status 500, body `{"error": "boom"}`. -/
def resp500boom : Response :=
  { status := 500, headers := [], body := Json.obj [("error", Json.str "boom")] }

/-- A failing control response whose JSON body is an object without an
`error` field. -/
def resp500plain : Response :=
  { status := 500, headers := [], body := Json.obj [("code", Json.num 1)] }

/-- A success response with an empty JSON object body and no headers. -/
def resp200empty : Response :=
  { status := 200, headers := [], body := Json.obj [] }

/-- A success response to a start request: status 200, header
`m-app-id: abc123`, body `{}`. -/
def resp200abc : Response :=
  { status := 200, headers := [("m-app-id", "abc123")], body := Json.obj [] }

/-- Discriminator: is this outcome a client-side precondition error
(a raised `ClientException`)? -/
def isClientPreconditionError : Except PyError Json → Bool
  | Except.error (PyError.clientException _) => true
  | _ => false

/-- Discriminator: did the operation return normally? -/
def isOkResult : Except PyError Json → Bool
  | Except.ok _ => true
  | _ => false

/-- Claim C1, evaluated on the code at the failing input: `appStartedEx` is
exactly the state reached by a successful `start()` (first conjunct), and
from it `stop()` never reaches the exchange — for every environment the
guard `permit_access_if("started", False, ...)` raises the client-side
`ClientException("App has not started.")` and leaves the state unchanged,
instead of passing as the claim requires. -/
theorem c1_stop_guard_rejects_started_state :
    (app0.start none (fun _ => resp200abc)).1 = appStartedEx ∧
    ∀ env : Env, appStartedEx.stop env
      = (appStartedEx, Except.error (PyError.clientException "App has not started.")) :=
  ⟨rfl, fun _ => rfl⟩

/-- Claim C2, counterexample: calling `attach` on an already-attached
Handler, with the server answering 200, does not raise any client-side
precondition error — it succeeds, contradicting the claim. -/
theorem c2_attach_guard_cex :
    isClientPreconditionError (handlerAttachedEx.attach "payload" (fun _ => resp200empty)).2
      = false ∧
    isOkResult (handlerAttachedEx.attach "payload" (fun _ => resp200empty)).2 = true :=
  ⟨rfl, rfl⟩

/-- Claim C2 as amended: `attach` carries no precondition guard in the
source; calling it again in the attached state sends the create request
again and, on a 200 response, returns the decoded body with the handler
still attached. -/
theorem c2_attach_not_guarded (h : Handler) (data : String) (r : Response)
    (_hset : h.handler_set = true) (hok : r.status = 200) :
    h.attach data (fun _ => r) = ({ h with handler_set := true }, Except.ok r.body) := by
  simp [Handler.attach, hok]

theorem c2_attach_not_guarded_witness :
    handlerAttachedEx.attach "payload" (fun _ => resp200empty)
      = ({ handlerAttachedEx with handler_set := true }, Except.ok resp200empty.body) :=
  c2_attach_not_guarded handlerAttachedEx "payload" resp200empty rfl rfl

/-- Claim C5: from any stopped state, a `start()` whose exchange returns
status 200 with header `m-app-id: abc123` and body `{}` leaves the handle
started with id "abc123" and returns the decoded body. -/
theorem c5_start_roundtrip (a : App) (cfg : Option Dict) (h : a.started = false) :
    (a.start cfg (fun _ => resp200abc)).1 = { a with id := some "abc123", started := true } ∧
    (a.start cfg (fun _ => resp200abc)).2.2 = Except.ok (Json.obj []) := by
  constructor <;>
    simp [App.start, permit_access_if, h, resp200abc, headerGet, List.find?]

theorem c5_start_roundtrip_witness :
    (app0.start none (fun _ => resp200abc)).1 = { app0 with id := some "abc123", started := true } ∧
    (app0.start none (fun _ => resp200abc)).2.2 = Except.ok (Json.obj []) :=
  c5_start_roundtrip app0 none rfl

/-- Claim C6: with `started = false`, `status()` raises the client-side
`ClientException("App has not started.")` for every environment (so its
outcome cannot depend on any request/response exchange — no network I/O),
and `handler(name)` likewise fails with the same precondition error without
connecting any adapter; in both cases the App is unchanged. -/
theorem c6_guard_before_io (a : App) (env : Env) (name : String)
    (adapter? : Option HTTPAdapter) (h : a.started = false) :
    a.status env = (a, Except.error (PyError.clientException "App has not started.")) ∧
    a.handler name adapter?
      = (a, Except.error (PyError.clientException "App has not started.")) := by
  constructor <;> simp [App.status, App.handler, permit_access_if, h]

theorem c6_guard_before_io_witness :
    app0.status (fun _ => resp500boom)
      = (app0, Except.error (PyError.clientException "App has not started.")) ∧
    app0.handler "h1" none
      = (app0, Except.error (PyError.clientException "App has not started.")) :=
  c6_guard_before_io app0 (fun _ => resp500boom) "h1" none rfl

/-- Claim C3: every control operation that reaches its exchange and receives
a non-200 response whose JSON body carries an `error` field raises the
corresponding typed exception with exactly the server-supplied message, and
leaves every local state field as it was.  `a` is an App in a state whose
guard admits `status`, `b` one whose guard admits `stop`/`start` (the
source's guard values), `hd` an attached Handler; `attach` is unguarded so
it needs no state hypothesis. -/
theorem c3_failure_mapping (a b : App) (hd : Handler) (m data url : String)
    (d : Json) (cfg : Option Dict) (r : Response)
    (hstat : r.status ≠ 200)
    (herr : jsonGetItem r.body "error" = Except.ok (Json.str m))
    (ha : a.started = true) (hb : b.started = false) (hh : hd.handler_set = true) :
    a.status (fun _ => r) = (a, Except.error (PyError.appException m)) ∧
    b.stop (fun _ => r) = (b, Except.error (PyError.appException m)) ∧
    (b.start cfg (fun _ => r)).1 = b ∧
    (b.start cfg (fun _ => r)).2.2 = Except.error (PyError.appException m) ∧
    hd.attach data (fun _ => r) = (hd, Except.error (PyError.handlerException m)) ∧
    hd.set_data url d (fun _ => r) = (hd, Except.error (PyError.handlerException m)) ∧
    hd.remove_data url (fun _ => r) = (hd, Except.error (PyError.handlerException m)) ∧
    hd.detach (fun _ => r) = (hd, Except.error (PyError.handlerException m)) := by
  refine ⟨?_, ?_, ?_, ?_, ?_, ?_, ?_, ?_⟩ <;>
    simp [App.status, App.stop, App.start, Handler.attach, Handler.set_data,
      Handler.remove_data, Handler.detach, permit_access_if, raiseFromBody,
      ha, hb, hh, hstat, herr, pyStr]

theorem c3_failure_mapping_witness :
    appStartedEx.status (fun _ => resp500boom)
      = (appStartedEx, Except.error (PyError.appException "boom")) ∧
    app0.stop (fun _ => resp500boom)
      = (app0, Except.error (PyError.appException "boom")) ∧
    (app0.start none (fun _ => resp500boom)).1 = app0 ∧
    (app0.start none (fun _ => resp500boom)).2.2
      = Except.error (PyError.appException "boom") ∧
    handlerAttachedEx.attach "payload" (fun _ => resp500boom)
      = (handlerAttachedEx, Except.error (PyError.handlerException "boom")) ∧
    handlerAttachedEx.set_data "/u" (Json.obj []) (fun _ => resp500boom)
      = (handlerAttachedEx, Except.error (PyError.handlerException "boom")) ∧
    handlerAttachedEx.remove_data "/u" (fun _ => resp500boom)
      = (handlerAttachedEx, Except.error (PyError.handlerException "boom")) ∧
    handlerAttachedEx.detach (fun _ => resp500boom)
      = (handlerAttachedEx, Except.error (PyError.handlerException "boom")) :=
  c3_failure_mapping appStartedEx app0 handlerAttachedEx "boom" "payload" "/u"
    (Json.obj []) none resp500boom (by decide) rfl rfl rfl rfl

/-- Claim C10: the typed exception is built from `body["error"]`, evaluated
before the exception is constructed — so for every control operation, a
non-200 response whose JSON body is an object without an `error` field makes
the operation fail with the subscript's KeyError instead of the typed
AppException/HandlerException, with local state again untouched. -/
theorem c10_missing_error_key (a b : App) (hd : Handler) (data url : String)
    (d : Json) (cfg : Option Dict) (r : Response)
    (hstat : r.status ≠ 200)
    (herr : jsonGetItem r.body "error" = Except.error (PyError.keyError "error"))
    (ha : a.started = true) (hb : b.started = false) (hh : hd.handler_set = true) :
    a.status (fun _ => r) = (a, Except.error (PyError.keyError "error")) ∧
    b.stop (fun _ => r) = (b, Except.error (PyError.keyError "error")) ∧
    (b.start cfg (fun _ => r)).1 = b ∧
    (b.start cfg (fun _ => r)).2.2 = Except.error (PyError.keyError "error") ∧
    hd.attach data (fun _ => r) = (hd, Except.error (PyError.keyError "error")) ∧
    hd.set_data url d (fun _ => r) = (hd, Except.error (PyError.keyError "error")) ∧
    hd.remove_data url (fun _ => r) = (hd, Except.error (PyError.keyError "error")) ∧
    hd.detach (fun _ => r) = (hd, Except.error (PyError.keyError "error")) := by
  refine ⟨?_, ?_, ?_, ?_, ?_, ?_, ?_, ?_⟩ <;>
    simp [App.status, App.stop, App.start, Handler.attach, Handler.set_data,
      Handler.remove_data, Handler.detach, permit_access_if, raiseFromBody,
      ha, hb, hh, hstat, herr]

theorem c10_missing_error_key_witness :
    appStartedEx.status (fun _ => resp500plain)
      = (appStartedEx, Except.error (PyError.keyError "error")) ∧
    app0.stop (fun _ => resp500plain)
      = (app0, Except.error (PyError.keyError "error")) ∧
    (app0.start none (fun _ => resp500plain)).1 = app0 ∧
    (app0.start none (fun _ => resp500plain)).2.2
      = Except.error (PyError.keyError "error") ∧
    handlerAttachedEx.attach "payload" (fun _ => resp500plain)
      = (handlerAttachedEx, Except.error (PyError.keyError "error")) ∧
    handlerAttachedEx.set_data "/u" (Json.obj []) (fun _ => resp500plain)
      = (handlerAttachedEx, Except.error (PyError.keyError "error")) ∧
    handlerAttachedEx.remove_data "/u" (fun _ => resp500plain)
      = (handlerAttachedEx, Except.error (PyError.keyError "error")) ∧
    handlerAttachedEx.detach (fun _ => resp500plain)
      = (handlerAttachedEx, Except.error (PyError.keyError "error")) :=
  c10_missing_error_key appStartedEx app0 handlerAttachedEx "payload" "/u"
    (Json.obj []) none resp500plain (by decide) rfl rfl rfl rfl

/-! State-machine traces for the Application Handle: each step is one
`start` or `stop` call together with the response the environment would
return for the request that call sends. -/

/-- One Application Handle call with its environment response. -/
inductive AppOp where
  | startOp (config : Option Dict) (resp : Response)
  | stopOp (resp : Response)

/-- The App state after one call, whether the call succeeded or raised. -/
def appStep (a : App) (op : AppOp) : App :=
  match op with
  | AppOp.startOp cfg r => (a.start cfg (fun _ => r)).1
  | AppOp.stopOp r => (a.stop (fun _ => r)).1

/-- The App state after a sequence of calls. -/
def runOps (a : App) (ops : List AppOp) : App :=
  ops.foldl appStep a

/-- Protocol well-formedness of one step (spec section 6): a successful
start response carries the `m-app-id` header.  Stop responses are
unconstrained. -/
def goodOp : AppOp → Bool
  | AppOp.startOp _ r => (r.status != 200) || (headerGet r.headers "m-app-id").isSome
  | AppOp.stopOp _ => true

/-- The claimed invariant: `id` is defined iff `started` is true. -/
def appInv (a : App) : Bool :=
  a.id.isSome == a.started

/-- Claim C4, counterexample: the invariant is not maintained across every
reachable sequence — a single `start()` whose exchange returns 200 without
an `m-app-id` header (`response.headers["m-app-id"]` is then None) reaches
a state with `started = true` and `id = None`. -/
theorem c4_invariant_cex :
    (runOps app0 [AppOp.startOp none resp200empty]).started = true ∧
    (runOps app0 [AppOp.startOp none resp200empty]).id = none ∧
    appInv (runOps app0 [AppOp.startOp none resp200empty]) = false :=
  ⟨rfl, rfl, rfl⟩

/-- One well-formed step preserves the invariant. -/
theorem appInv_appStep (a : App) (op : AppOp) (ha : appInv a = true)
    (hop : goodOp op = true) : appInv (appStep a op) = true := by
  cases op with
  | startOp cfg r =>
    cases hs : a.started with
    | true => simpa [appStep, App.start, permit_access_if, hs] using ha
    | false =>
      by_cases hr : r.status = 200
      · simp [goodOp, hr] at hop
        simp [appStep, App.start, permit_access_if, hs, hr, appInv, hop]
      · simpa [appStep, App.start, permit_access_if, hs, hr] using ha
  | stopOp r =>
    cases hs : a.started with
    | true => simpa [appStep, App.stop, permit_access_if, hs] using ha
    | false =>
      by_cases hr : r.status = 200
      · simp [appInv, hs] at ha
        simp [appStep, App.stop, permit_access_if, hs, hr, appInv, ha]
      · simpa [appStep, App.stop, permit_access_if, hs, hr] using ha

/-- A well-formed trace preserves the invariant from any state satisfying
it. -/
theorem appInv_runOps (ops : List AppOp) : ∀ a : App, appInv a = true →
    ops.all goodOp = true → appInv (runOps a ops) = true := by
  induction ops with
  | nil => intro a ha _; simpa [runOps] using ha
  | cons op rest ih =>
    intro a ha hall
    rw [List.all_cons, Bool.and_eq_true] at hall
    have hstep : runOps a (op :: rest) = runOps (appStep a op) rest := rfl
    rw [hstep]
    exact ih _ (appInv_appStep a op ha hall.1) hall.2

/-- Claim C4 as amended: provided every successful (status-200) start
response carries the `m-app-id` header, every state reachable from a fresh
App by any sequence of `start()`/`stop()` calls — successful or failing —
satisfies: `id` is defined iff `started` is true. -/
theorem c4_id_iff_started (name : String) (port : Nat) (conn : Option Conn)
    (enable_ssl : Bool) (cert key : Option String) (ops : List AppOp)
    (hgood : ops.all goodOp = true) :
    appInv (runOps (App.init name port conn enable_ssl cert key) ops) = true :=
  appInv_runOps ops (App.init name port conn enable_ssl cert key) rfl hgood

theorem c4_id_iff_started_witness :
    appInv (runOps (App.init "svc" 9001 none false none none)
      [AppOp.startOp none resp200abc, AppOp.stopOp resp500boom]) = true :=
  c4_id_iff_started "svc" 9001 none false none none
    [AppOp.startOp none resp200abc, AppOp.stopOp resp500boom] rfl

/-- Claim C7: for every Client and every scope body — returning normally or
raising — leaving the managed scope runs the adapter's `disconnect` exactly
once (the ghost call counter rises by exactly one), and the scope's outcome
is exactly the body's outcome, delivered after `disconnect` has run: a body
exception propagates unchanged to the caller. -/
theorem c7_scope_disconnect_once {α : Type} (cl : Client)
    (body : Client → Except PyError α) :
    (cl.withScope body).1.adapter.disconnectCalls = cl.adapter.disconnectCalls + 1 ∧
    (cl.withScope body).2 = body cl.connect :=
  ⟨rfl, rfl⟩

/-- Claim C8: from the started state, `handler(name)` leaves the App
untouched; with no adapter supplied it builds a fresh plain adapter to
(0.0.0.0, app port), connects it (a connection with host 0.0.0.0, the
app's port, and the 10-second timeout) and binds the new Handler to that
connection; with a caller-supplied adapter it connects that adapter and
binds the Handler to the connection the adapter then exposes. -/
theorem c8_handler_factory (a : App) (name : String) (ad : HTTPAdapter)
    (h : a.started = true) :
    (a.handler name none).1 = a ∧
    (a.handler name (some ad)).1 = a ∧
    (a.handler name none).2 = Except.ok
      ({ host := "0.0.0.0", port := a.port,
         conn := some { host := "0.0.0.0", port := a.port, timeout := 10 },
         connected := true, disconnectCalls := 0 },
       { name := name, conn := some { host := "0.0.0.0", port := a.port, timeout := 10 },
         base_url := "/mock/app/handler/", handler_set := false }) ∧
    (a.handler name (some ad)).2
      = Except.ok (ad.connect.1, Handler.init name (some ad.connect.2)) ∧
    ad.connect.1.conn = some ad.connect.2 := by
  refine ⟨?_, ?_, ?_, ?_, ?_⟩ <;>
    simp [App.handler, permit_access_if, h, HTTPAdapter.connect, HTTPAdapter.init,
      Handler.init]

theorem c8_handler_factory_witness :
    (appStartedEx.handler "h1" none).1 = appStartedEx ∧
    (appStartedEx.handler "h1" (some (HTTPAdapter.init "10.0.0.1" 7777))).1 = appStartedEx ∧
    (appStartedEx.handler "h1" none).2 = Except.ok
      ({ host := "0.0.0.0", port := appStartedEx.port,
         conn := some { host := "0.0.0.0", port := appStartedEx.port, timeout := 10 },
         connected := true, disconnectCalls := 0 },
       { name := "h1",
         conn := some { host := "0.0.0.0", port := appStartedEx.port, timeout := 10 },
         base_url := "/mock/app/handler/", handler_set := false }) ∧
    (appStartedEx.handler "h1" (some (HTTPAdapter.init "10.0.0.1" 7777))).2
      = Except.ok ((HTTPAdapter.init "10.0.0.1" 7777).connect.1,
          Handler.init "h1" (some (HTTPAdapter.init "10.0.0.1" 7777).connect.2)) ∧
    (HTTPAdapter.init "10.0.0.1" 7777).connect.1.conn
      = some (HTTPAdapter.init "10.0.0.1" 7777).connect.2 :=
  c8_handler_factory appStartedEx "h1" (HTTPAdapter.init "10.0.0.1" 7777) rfl

/-- A non-empty caller config dict for the C9 scenario, holding an unrelated
key. -/
def cfgFoo : Dict := [("foo", Json.str "bar")]

/-- Claim C9, counterexample: a `start(config)` call on an already-started
App raises the precondition guard before `config.update` runs — the
caller's non-empty dict comes back unchanged, without any `ssl_cert` key,
even though the call raised. -/
theorem c9_config_mutation_cex :
    (appStartedEx.start (some cfgFoo) (fun _ => resp200abc)).2.1 = some cfgFoo ∧
    dictHasKey cfgFoo "ssl_cert" = false ∧
    isClientPreconditionError
      (appStartedEx.start (some cfgFoo) (fun _ => resp200abc)).2.2 = true :=
  ⟨rfl, rfl, rfl⟩

/-- Looking up the key just stored. -/
theorem dictGet_dictSet_self (d : Dict) (k : String) (v : Json) :
    dictGet (dictSet d k v) k = some v := by
  induction d with
  | nil => simp [dictSet, dictGet, List.find?]
  | cons p rest ih =>
    by_cases h1 : (p.1 == k) = true
    · simp [dictSet, h1, dictGet, List.find?]
    · have h1' : (p.1 == k) = false := by simpa using h1
      simpa [dictSet, h1', dictGet, List.find?] using ih

/-- Storing one key leaves the lookup of a different key unchanged. -/
theorem dictGet_dictSet_ne (d : Dict) (k k' : String) (v : Json)
    (hk : (k == k') = false) :
    dictGet (dictSet d k v) k' = dictGet d k' := by
  induction d with
  | nil => simp [dictSet, dictGet, List.find?, hk]
  | cons p rest ih =>
    by_cases h1 : (p.1 == k) = true
    · have hp : (p.1 == k') = false := by
        have : p.1 = k := by simpa using h1
        simpa [this] using hk
      simp [dictSet, h1, dictGet, List.find?, hk, hp]
    · simp only [dictSet, h1, if_false, Bool.false_eq_true]
      simp only [dictGet, List.find?] at ih ⊢
      cases h2 : (p.1 == k') <;> simp [h2, ih]

/-- Claim C9 as amended: when the call passes the precondition guard
(`started = false`) and the caller's config dict is non-empty, then after
`start` — whatever the exchange outcome, success or raised exception — that
same dict has been updated in place: it now maps "ssl_cert" and "ssl_key"
to the App's certificate/key values, overwriting any caller values under
those keys. -/
theorem c9_config_mutation (a : App) (cfg : Dict) (env : Env)
    (hstart : a.started = false) (hne : cfg.isEmpty = false) :
    (a.start (some cfg) env).2.1
      = some (dictUpdate cfg [("ssl_cert", jsonOfOptStr a.ssl_cert),
                              ("ssl_key", jsonOfOptStr a.ssl_key)]) ∧
    dictGet ((a.start (some cfg) env).2.1.getD []) "ssl_cert"
      = some (jsonOfOptStr a.ssl_cert) ∧
    dictGet ((a.start (some cfg) env).2.1.getD []) "ssl_key"
      = some (jsonOfOptStr a.ssl_key) := by
  obtain ⟨p, rest, rfl⟩ : ∃ p rest, cfg = p :: rest := by
    cases cfg with
    | nil => simp [List.isEmpty] at hne
    | cons p rest => exact ⟨p, rest, rfl⟩
  have hmain : (a.start (some (p :: rest)) env).2.1
      = some (dictUpdate (p :: rest) [("ssl_cert", jsonOfOptStr a.ssl_cert),
                                      ("ssl_key", jsonOfOptStr a.ssl_key)]) := by
    simp [App.start, permit_access_if, hstart]
    split <;> simp
  refine ⟨hmain, ?_, ?_⟩ <;> rw [hmain] <;>
    simp only [Option.getD_some, dictUpdate, List.foldl]
  · rw [dictGet_dictSet_ne _ "ssl_key" "ssl_cert" _ (by decide)]
    exact dictGet_dictSet_self _ "ssl_cert" (jsonOfOptStr a.ssl_cert)
  · exact dictGet_dictSet_self _ "ssl_key" (jsonOfOptStr a.ssl_key)

theorem c9_config_mutation_witness :
    (app0.start (some cfgFoo) (fun _ => resp200abc)).2.1
      = some (dictUpdate cfgFoo [("ssl_cert", jsonOfOptStr app0.ssl_cert),
                                 ("ssl_key", jsonOfOptStr app0.ssl_key)]) ∧
    dictGet ((app0.start (some cfgFoo) (fun _ => resp200abc)).2.1.getD []) "ssl_cert"
      = some (jsonOfOptStr app0.ssl_cert) ∧
    dictGet ((app0.start (some cfgFoo) (fun _ => resp200abc)).2.1.getD []) "ssl_key"
      = some (jsonOfOptStr app0.ssl_key) :=
  c9_config_mutation app0 cfgFoo (fun _ => resp200abc) rfl rfl

end HttpMocker
